import Mathlib

/-!
Shallow embedding of the two converters of the osmand2qgis-style repository:
`osmand2qgis_point.py` (OsmAnd point rules → QGIS marker symbols) and
`osmand2qgis_road.py` (OsmAnd road rules → QGIS line symbols).

Python floats are idealised as exact fractions (an unnormalised
numerator/denominator pair); machine strings are Lean `String`s; the lxml
element tree is a finite ordered tree with a tag, an ordered attribute list
and a child list; the filesystem is an oracle pair (existence, content);
exceptions raised by `float()` / `int(_, 16)` are `Except.error`.
-/

namespace O2Q

/-- The apostrophe character (U+0027), used by the XML declaration literal. -/
def apos : Char := Char.ofNat 39

/-- The double-quote character (U+0022), used by XML attribute serialisation. -/
def dquote : Char := Char.ofNat 34

/-- The whitespace characters stripped by Python's `str.strip()`:
space, tab, newline, carriage return, vertical tab, form feed. -/
def pyWhitespace : List Char :=
  [' ', Char.ofNat 9, Char.ofNat 10, Char.ofNat 13, Char.ofNat 11, Char.ofNat 12]

/-- Python `str.strip()`: remove leading and trailing whitespace. -/
def pyStrip (s : String) : String :=
  String.mk (((s.data.dropWhile (pyWhitespace.contains ·)).reverse.dropWhile
    (pyWhitespace.contains ·)).reverse)

/-- Python `s.startswith(c)` for a single-character needle `c`. -/
def pyStartsWith (s : String) (c : Char) : Bool :=
  match s.data with
  | [] => false
  | a :: _ => a == c

/-- Python `s[1:]`: drop the first character. -/
def pyDropOne (s : String) : String := String.mk s.data.tail

/-- Python `s.lstrip(c)` for a single-character strip set. -/
def pyLstrip (s : String) (c : Char) : String := String.mk (s.data.dropWhile (· == c))

/-- Exact fraction standing in for a Python `float` value.  The pair is kept
unnormalised; all consumers (`formatFrac`, `pyFloatStr`) work with the exact
rational value `num / den`. -/
structure Frac where
  num : Int
  den : Nat
deriving DecidableEq, Repr

/-- Product of two fractions (Python `*` on floats, idealised exactly). -/
def Frac.mul (a b : Frac) : Frac := ⟨a.num * b.num, a.den * b.den⟩

/-- Round `a / b` (with `b > 0`) to the nearest integer, ties to even — the
rounding used by CPython's fixed-point float formatting. -/
def roundHalfEven (a b : Int) : Int :=
  let d := Int.fdiv a b
  let r := Int.fmod a b
  if 2 * r < b then d
  else if b < 2 * r then d + 1
  else if d % 2 = 0 then d else d + 1

/-- Left-pad a digit string with zeros to length `k`. -/
def padZeros (k : Nat) (s : String) : String :=
  String.mk (List.replicate (k - s.length) '0' ++ s.data)

/-- Fixed-point rendering of the nonnegative fraction `num / den` with `prec`
digits after the point — the model of Python's `format(x, '.precf')` for
nonnegative `x`. -/
def formatFracNN (prec : Nat) (num : Int) (den : Nat) : String :=
  let n := (roundHalfEven (num * (10 : Int) ^ prec) (den : Int)).toNat
  let ip := n / 10 ^ prec
  let fp := n % 10 ^ prec
  if prec = 0 then toString ip
  else toString ip ++ "." ++ padZeros prec (toString fp)

/-- Fixed-point rendering of a fraction with `prec` digits after the point —
the model of a Python `f"{x:.precf}"` format specifier. -/
def formatFrac (prec : Nat) (f : Frac) : String :=
  if f.num < 0 then "-" ++ formatFracNN prec (-f.num) f.den
  else formatFracNN prec f.num f.den

/-- Value of one hexadecimal digit, as accepted by Python `int(_, 16)`. -/
def hexDigitVal (c : Char) : Option Nat :=
  if '0' ≤ c ∧ c ≤ '9' then some (c.toNat - 48)
  else if 'a' ≤ c ∧ c ≤ 'f' then some (c.toNat - 87)
  else if 'A' ≤ c ∧ c ≤ 'F' then some (c.toNat - 55)
  else none

/-- Python `int(two_chars, 16)`: value of a two-hex-digit slice. -/
def hexByte (c1 c2 : Char) : Option Nat :=
  match hexDigitVal c1, hexDigitVal c2 with
  | some h, some l => some (h * 16 + l)
  | _, _ => none

/-- The `r/255` colour channel rendered as Python `f"{r/255:.10f}"`. -/
def channelStr (r : Nat) : String := formatFrac 10 ⟨(r : Int), 255⟩

/-- Function `hex_to_rgb` from `osmand2qgis_road.py`: strip leading `#`, and when six
characters remain parse three hex bytes and render
`"r,g,b,255,rgb:r/255,g/255,b/255,1"` with ten-digit channel fractions;
any other remaining length yields the constant `"0,0,0,255,rgb:0,0,0,1"`.
`Except.error` models the `ValueError` that `int(_, 16)` raises on a
six-character remainder that is not valid hexadecimal. -/
def hex_to_rgb (hex_color : String) : Except Unit String :=
  match (pyLstrip hex_color '#').data with
  | [a, b, c, d, e, f] =>
    match hexByte a b, hexByte c d, hexByte e f with
    | some r, some g, some bl =>
      .ok (toString r ++ "," ++ toString g ++ "," ++ toString bl ++ ",255,rgb:"
        ++ channelStr r ++ "," ++ channelStr g ++ "," ++ channelStr bl ++ ",1")
    | _, _, _ => .error ()
  | _ => .ok "0,0,0,255,rgb:0,0,0,1"

/-- Function `resolve_color_variable` from `osmand2qgis_road.py`: a `$`-prefixed
variable is looked up in the colour-definition table, a `#`-prefixed literal
passes through, and everything else (including an unknown variable) falls
back to `"#000000"`. -/
def resolve_color_variable (color_var : String)
    (color_definitions : List (String × String)) : String :=
  if pyStartsWith color_var '$' then
    match color_definitions.lookup (pyDropOne color_var) with
    | some v => v
    | none => "#000000"
  else if pyStartsWith color_var '#' then color_var
  else "#000000"

/-- Numeric value of a list of decimal digit characters. -/
def digitsVal (l : List Char) : Nat :=
  l.foldl (fun a c => a * 10 + (c.toNat - 48)) 0

/-- Python `float(s)` on the decimal forms produced by OsmAnd width values:
optional surrounding whitespace, optional sign, digits with at most one
decimal point.  (Exponent, `inf`/`nan` and underscore forms of the full
Python grammar are never produced by the source data and are not modelled;
they would also parse or fail on data this program never sees.)
`Except.error` models the raised `ValueError`. -/
def pyFloat (s : String) : Except Unit Frac :=
  let t := (pyStrip s).data
  let (sgn, t2) : Int × List Char :=
    match t with
    | c :: rest => if c = '-' then (-1, rest) else if c = '+' then (1, rest) else (1, t)
    | [] => (1, t)
  let ip := t2.takeWhile Char.isDigit
  match t2.drop ip.length with
  | [] => if ip.isEmpty then .error () else .ok ⟨sgn * digitsVal ip, 1⟩
  | c :: frac =>
    if c = '.' then
      let fd := frac.takeWhile Char.isDigit
      if !(frac.drop fd.length).isEmpty then .error ()
      else if ip.isEmpty && fd.isEmpty then .error ()
      else .ok ⟨sgn * (digitsVal ip * 10 ^ fd.length + digitsVal fd), 10 ^ fd.length⟩
    else .error ()

/-- Shortest-decimal rendering of a nonnegative fraction: the model of
Python `str(x)` for a nonnegative float holding an exact decimal value. -/
def pyFloatStrNN (f : Frac) : String :=
  let g := Nat.gcd f.num.toNat f.den
  let n := f.num.toNat / g
  let d := f.den / g
  if d = 1 then toString n ++ ".0"
  else
    match ((List.range 21).drop 1).find? (fun k => 10 ^ k % d == 0) with
    | some k =>
      let m := n * (10 ^ k / d)
      toString (m / 10 ^ k) ++ "." ++ padZeros k (toString (m % 10 ^ k))
    | none => formatFrac 17 f

/-- The model of Python `str(x)` on a float idealised as an exact fraction
(the widths handled by the converter are all short exact decimals). -/
def pyFloatStr (f : Frac) : String :=
  if f.num < 0 then "-" ++ pyFloatStrNN ⟨-f.num, f.den⟩ else pyFloatStrNN f

/-- Python `str.title()` on ASCII text: uppercase every letter that follows a
non-letter, lowercase every other letter. -/
def pyTitleGo : Bool → List Char → List Char
  | _, [] => []
  | prev, c :: rest =>
    (if c.isAlpha then (if prev then c.toLower else c.toUpper) else c)
      :: pyTitleGo c.isAlpha rest

/-- Python `s.title()`. -/
def pyTitle (s : String) : String := String.mk (pyTitleGo false s.data)

/-- Python `s.replace('_', ' ')`. -/
def underscoreToSpace (s : String) : String :=
  String.mk (s.data.map (fun c => if c = '_' then ' ' else c))

/-! ## The lxml element tree -/

/-- An lxml element: tag name, ordered attribute list, ordered children.
Text and tail content plays no role in either converter and is not
modelled. -/
inductive XTree where
  | node (tag : String) (attrs : List (String × String)) (children : List XTree)
deriving Repr

/-- Tag name of an element. -/
def XTree.tagOf : XTree → String
  | .node t _ _ => t

/-- Attribute list of an element. -/
def XTree.attrsOf : XTree → List (String × String)
  | .node _ a _ => a

/-- Children of an element. -/
def XTree.childrenOf : XTree → List XTree
  | .node _ _ cs => cs

/-- Model of `elem.get(key)` / `key in elem.attrib`: first binding of an attribute. -/
def XTree.attr (t : XTree) (k : String) : Option String := t.attrsOf.lookup k

/-- Model of `elem.attrib.get(key, default)`. -/
def XTree.attrD (t : XTree) (k d : String) : String := (t.attr k).getD d

mutual
/-- Strict descendants of an element in document (preorder) order — the
node set selected by an lxml `.//` XPath step. -/
def strictDesc : XTree → List XTree
  | .node _ _ cs => descList cs

/-- All elements of a forest together with their strict descendants, in
document order. -/
def descList : List XTree → List XTree
  | [] => []
  | c :: cs => c :: (strictDesc c ++ descList cs)
end

mutual
/-- Strict descendants of an element paired with their ancestor chain
(nearest ancestor first, the original root last) — the data available
through lxml's `getparent()` traversal.  `anc` is the chain of the
element itself. -/
def descWithAnc : XTree → List XTree → List (XTree × List XTree)
  | .node t a cs, anc => descAncList cs (XTree.node t a cs :: anc)

/-- Elements of a forest with chain `anc`, each paired with its chain,
together with their own descendants, in document order. -/
def descAncList : List XTree → List XTree → List (XTree × List XTree)
  | [], _ => []
  | c :: cs, anc => (c, anc) :: (descWithAnc c anc ++ descAncList cs anc)
end

/-- Escape of one character inside a serialised attribute value, as done by
libxml2 (`&`, `<`, `>`, `"`, newline and tab become entity references). -/
def escAttrChar (c : Char) : List Char :=
  if c = '&' then "&amp;".data
  else if c = '<' then "&lt;".data
  else if c = '>' then "&gt;".data
  else if c = dquote then "&quot;".data
  else if c = Char.ofNat 10 then "&#10;".data
  else if c = Char.ofNat 9 then "&#9;".data
  else [c]

/-- Escaped attribute value text. -/
def escAttr (s : String) : String := String.mk (s.data.flatMap escAttrChar)

/-- Serialised attribute list: one leading space before each `name="value"`. -/
def attrsStr : List (String × String) → String
  | [] => ""
  | (k, v) :: rest => " " ++ k ++ "=\"" ++ escAttr v ++ "\"" ++ attrsStr rest

mutual
/-- lxml `etree.tostring(elem, encoding='unicode')` on text-free trees:
self-closing form for childless elements, start/end tag pair otherwise. -/
def serializeX : XTree → String
  | .node t a cs =>
    if cs.isEmpty then "<" ++ t ++ attrsStr a ++ "/>"
    else "<" ++ t ++ attrsStr a ++ ">" ++ serializeList cs ++ "</" ++ t ++ ">"

/-- Serialisation of a forest: concatenation in order. -/
def serializeList : List XTree → String
  | [] => ""
  | c :: cs => serializeX c ++ serializeList cs
end

/-! ## QGIS symbol trees -/

/-- One generated `<layer>` element: its four XML attributes and the ordered
`name → value` pairs of its `<Option>` entries (every entry the scripts
emit has type `QString`; the empty `parameters` / `data_defined_properties`
placeholder blocks carry no data and are not modelled separately). -/
structure QLayer where
  pass : String
  enabled : String
  cls : String
  locked : String
  props : List (String × String)
deriving DecidableEq, Repr

/-- One generated `<symbol>` element: type, name, the remaining fixed
attributes, and the ordered layer list. -/
structure QSymbol where
  typ : String
  name : String
  attrs : List (String × String)
  layers : List QLayer
deriving DecidableEq, Repr

namespace Point

/-- The `shield_options` list of `create_qgis_symbol` in
`osmand2qgis_point.py` (first, background layer). -/
def shield_options (shield_base64 : String) : List (String × String) :=
  [("angle", "0"),
   ("color", "255,255,255,255,rgb:1,1,1,1"),
   ("fixedAspectRatio", "0"),
   ("horizontal_anchor_point", "1"),
   ("name", shield_base64),
   ("offset", "0,0"),
   ("offset_map_unit_scale", "3x:0,0,0,0,0,0"),
   ("offset_unit", "MM"),
   ("outline_color", "255,255,255,255,rgb:1,1,1,1"),
   ("outline_width", "0.4"),
   ("outline_width_map_unit_scale", "3x:0,0,0,0,0,0"),
   ("outline_width_unit", "MM"),
   ("scale_method", "diameter"),
   ("size", "6.8"),
   ("size_map_unit_scale", "3x:0,0,0,0,0,0"),
   ("size_unit", "MM"),
   ("vertical_anchor_point", "1")]

/-- The `icon_options` list of `create_qgis_symbol` in
`osmand2qgis_point.py` (second, foreground layer). -/
def icon_options (icon_base64 : String) : List (String × String) :=
  [("angle", "0"),
   ("color", "255,255,255,255,rgb:1,1,1,1"),
   ("fixedAspectRatio", "0"),
   ("horizontal_anchor_point", "1"),
   ("name", icon_base64),
   ("offset", "0,0"),
   ("offset_map_unit_scale", "3x:0,0,0,0,0,0"),
   ("offset_unit", "MM"),
   ("outline_color", "255,255,255,255,rgb:1,1,1,1"),
   ("outline_width", "0.1"),
   ("outline_width_map_unit_scale", "3x:0,0,0,0,0,0"),
   ("outline_width_unit", "MM"),
   ("scale_method", "diameter"),
   ("size", "4.4"),
   ("size_map_unit_scale", "3x:0,0,0,0,0,0"),
   ("size_unit", "MM"),
   ("vertical_anchor_point", "1")]

/-- Function `create_qgis_symbol` of `osmand2qgis_point.py`: a marker symbol with the
shield layer first and the icon layer second, both `pass="0"`. -/
def create_qgis_symbol (value icon_base64 shield_base64 : String) : QSymbol :=
  { typ := "marker", name := value,
    attrs := [("frame_rate", "10"), ("tags", "OSMAnd"), ("clip_to_extent", "1"),
      ("is_animated", "0"), ("force_rhr", "0"), ("alpha", "1")],
    layers :=
      [{ pass := "0", enabled := "1", cls := "SvgMarker", locked := "0",
         props := shield_options shield_base64 },
       { pass := "0", enabled := "1", cls := "SvgMarker", locked := "0",
         props := icon_options icon_base64 }] }

/-- The ancestor walk of `find_shield_value`: return the `shield` attribute
of the first ancestor that is a `switch` or `apply` element carrying one. -/
def walkShield : List XTree → Option String
  | [] => none
  | p :: rest =>
    if p.tagOf == "switch" && (p.attr "shield").isSome then p.attr "shield"
    else if p.tagOf == "apply" && (p.attr "shield").isSome then p.attr "shield"
    else walkShield rest

/-- Function `find_shield_value` of `osmand2qgis_point.py`, on a case element given
with its ancestor chain (nearest first): the element's own `shield`
attribute if present, else the ancestor walk. -/
def find_shield_value (c : XTree) (ancestors : List XTree) : Option String :=
  match c.attr "shield" with
  | some v => some v
  | none => walkShield ancestors

/-- Selection predicate of `root.findall(".//case[@tag][@value][@icon]")`:
a `case` element with all three attributes present. -/
def caseSel (n : XTree) : Bool :=
  n.tagOf == "case" && (n.attr "tag").isSome && (n.attr "value").isSome
    && (n.attr "icon").isSome

/-- The candidate elements of the point pipeline: all descendant `case`
elements with `tag`, `value` and `icon` attributes, in document order. -/
def cases (root : XTree) : List XTree := (strictDesc root).filter caseSel

/-- The rule elements the point pipeline actually converts: the candidates
whose stripped `tag`, `value` and `icon` are all non-empty (the `continue`
guard at the top of the main loop). -/
def pointRules (root : XTree) : List XTree :=
  (cases root).filter (fun n =>
    pyStrip (n.attrD "tag" "") != "" && pyStrip (n.attrD "value" "") != ""
      && pyStrip (n.attrD "icon" "") != "")

/-- Icon path `{icons_dir}/mx_{icon}.svg` of `osmand2qgis_point.py`. -/
def iconPath (icon_name : String) : String :=
  "OsmAnd-resources/rendering_styles/style-icons/poi-icons-svg/mx_" ++ icon_name ++ ".svg"

/-- Shield path `{shields_dir}/h_{shield}.svg` of `osmand2qgis_point.py`. -/
def shieldPath (shield : String) : String :=
  "OsmAnd-resources/icons/svg/shields/h_" ++ shield ++ ".svg"

/-- The body of the main loop of `osmand2qgis_point.py`, one candidate at a
time.  `fsExists` models `os.path.exists`; `fsContent path` models the
base64 text of the file at `path` (`base64.b64encode(open(path).read())`).
Skips: blank attribute, duplicate symbol name already in the container,
missing or empty shield value, missing icon file, missing shield file. -/
def loop (fsExists : String → Bool) (fsContent : String → String) :
    List (XTree × List XTree) → List QSymbol → List QSymbol
  | [], acc => acc
  | (c, anc) :: rest, acc =>
    let icon_name := pyStrip (c.attrD "icon" "")
    let tag := pyStrip (c.attrD "tag" "")
    let value := pyStrip (c.attrD "value" "")
    if tag == "" || value == "" || icon_name == "" then loop fsExists fsContent rest acc
    else
      let symbol_name := tag ++ ":" ++ value
      if acc.any (fun s => s.name == symbol_name) then loop fsExists fsContent rest acc
      else
        match find_shield_value c anc with
        | none => loop fsExists fsContent rest acc
        | some shield =>
          if shield == "" then loop fsExists fsContent rest acc
          else if !fsExists (iconPath icon_name) then loop fsExists fsContent rest acc
          else
            let icon_base64 := "base64:" ++ fsContent (iconPath icon_name)
            if !fsExists (shieldPath shield) then loop fsExists fsContent rest acc
            else
              let shield_base64 := "base64:" ++ fsContent (shieldPath shield)
              loop fsExists fsContent rest
                (acc ++ [create_qgis_symbol symbol_name icon_base64 shield_base64])

/-- The symbol list `main` of `osmand2qgis_point.py` appends to the
`<symbols>` container: the loop run over all candidates with their
ancestor chains, starting from an empty container. -/
def mainSymbols (root : XTree) (fsExists : String → Bool)
    (fsContent : String → String) : List QSymbol :=
  loop fsExists fsContent ((descWithAnc root []).filter (fun p => caseSel p.1)) []

end Point

namespace Road

/-- Substring test on character lists: the model of Python's `in` on
strings. -/
def listContainsSub (p : List Char) : List Char → Bool
  | [] => p.isEmpty
  | c :: rest => List.isPrefixOf p (c :: rest) || listContainsSub p rest

/-- One anchored attempt of the regular expression `pat"([^"]*)"` at the
start of `s`: the literal pattern, an opening quote, then the capture up to
the next quote (which must exist). -/
def tryCapture (p s : List Char) : Option (List Char) :=
  if List.isPrefixOf p s then
    match s.drop p.length with
    | q :: rest => if q = dquote ∧ rest.contains dquote
        then some (rest.takeWhile (· != dquote)) else none
    | [] => none
  else none

/-- Model of the search of the regular expression built from a pattern: the capture at the leftmost position
where the anchored attempt succeeds. -/
def captureAfter (p : List Char) : List Char → Option (List Char)
  | [] => none
  | c :: rest =>
    match tryCapture p (c :: rest) with
    | some v => some v
    | none => captureAfter p rest

/-- The `stroke_width_attrs` pattern list of `extract_stroke_width_for_zoom`,
tried in order on each serialised nested case. -/
def stroke_width_attrs (zoom : Nat) : List String :=
  ["maxzoom=\"" ++ toString zoom ++ "\" strokeWidth=",
   "minzoom=\"" ++ toString zoom ++ "\" strokeWidth=",
   "strokeWidth="]

/-- The per-case pattern scan of `extract_stroke_width_for_zoom`: the first
pattern occurring in the serialised case text whose regular expression also
matches yields its captured value. -/
def matchCase (zoom : Nat) (case_str : String) : Option String :=
  (stroke_width_attrs zoom).findSome? (fun pat =>
    if listContainsSub pat.data case_str.data then
      (captureAfter pat.data case_str.data).map String.mk
    else none)

/-- The elements `extract_stroke_width_for_zoom` serialises and scans: every
`case` descendant of every `apply` descendant of the rule element, in
iteration order. -/
def inspectedCases (t : XTree) : List XTree :=
  ((strictDesc t).filter (fun n => n.tagOf == "apply")).flatMap
    (fun a => (strictDesc a).filter (fun n => n.tagOf == "case"))

/-- The first captured `strokeWidth` value over all inspected cases — the
value whose processing the early `return` of the source performs. -/
def firstStrokeMatch (zoom : Nat) (t : XTree) : Option String :=
  (inspectedCases t).findSome? (fun c => matchCase zoom (serializeX c))

/-- Width of a captured value string: the portion before `:` when the
separator is present (`width_str.split(':')[0]`), the whole string
otherwise, both through `float()`. -/
def widthOfValue (v : String) : Except Unit Frac :=
  if v.data.contains ':' then pyFloat (String.mk (v.data.takeWhile (· != ':')))
  else pyFloat v

/-- Function `extract_stroke_width_for_zoom` of `osmand2qgis_road.py`: process the
first textual `strokeWidth` match in the subtree, or fall back to the
default width `2.0`. -/
def extract_stroke_width_for_zoom (case_elem : XTree) (zoom : Nat) : Except Unit Frac :=
  match firstStrokeMatch zoom case_elem with
  | some v => widthOfValue v
  | none => .ok ⟨2, 1⟩

/-- One normalized road rule record as built by `extract_road_info`. -/
structure RoadInfo where
  tag : String
  value : String
  color : String
  symbol_name : String
  stroke_width : Frac
deriving DecidableEq, Repr

/-- Road symbol name: `f"Road {value.replace('_', ' ').title()}"`. -/
def roadSymbolName (value : String) : String :=
  "Road " ++ pyTitle (underscoreToSpace value)

/-- The curated `additional_roads` list of `extract_road_info`:
value, colour-variable reference, default width. -/
def additional_roads : List (String × String × Frac) :=
  [("service", "$serviceRoadColor", ⟨15, 10⟩),
   ("pedestrian", "$pedestrianRoadColor", ⟨12, 10⟩),
   ("footway", "$footwayColor", ⟨1, 1⟩),
   ("cycleway", "$cyclewayColor", ⟨1, 1⟩),
   ("path", "$pathColor", ⟨1, 1⟩),
   ("bridleway", "$bridlewayColor", ⟨1, 1⟩),
   ("steps", "$footwayColor", ⟨1, 1⟩),
   ("living_street", "$residentialRoadColor", ⟨18, 10⟩),
   ("road", "$roadRoadColor", ⟨15, 10⟩)]

/-- The highway-case loop of `extract_road_info`: each case with
`tag="highway"`, truthy `value` and `color`, and a `value` not yet
processed is resolved and appended; `processed` mirrors the
`processed_highways` set (insertion order).  An exception from `float()`
during width extraction aborts the run. -/
def docLoop (defs : List (String × String)) :
    List XTree → List RoadInfo → List String → Except Unit (List RoadInfo × List String)
  | [], roads, processed => .ok (roads, processed)
  | c :: rest, roads, processed =>
    let tag := c.attrD "tag" ""
    let value := c.attrD "value" ""
    let color_attr := c.attrD "color" ""
    if tag == "highway" && value != "" && color_attr != "" && !processed.contains value then
      match extract_stroke_width_for_zoom c 16 with
      | .error e => .error e
      | .ok w =>
        let r : RoadInfo :=
          { tag := tag, value := value,
            color := resolve_color_variable color_attr defs,
            symbol_name := roadSymbolName value, stroke_width := w }
        docLoop defs rest (roads ++ [r]) (processed ++ [value])
    else docLoop defs rest roads processed

/-- The case elements the road pipeline iterates: for each
`switch[@minzoom="14"]` descendant of the line section, its
`case[@tag="highway"][@value][@color]` descendants, in document order. -/
def highwayCases (line_section : XTree) : List XTree :=
  ((strictDesc line_section).filter
      (fun n => n.tagOf == "switch" && n.attr "minzoom" == some "14")).flatMap
    (fun sw => (strictDesc sw).filter (fun n =>
      n.tagOf == "case" && n.attr "tag" == some "highway"
        && (n.attr "value").isSome && (n.attr "color").isSome))

/-- One entry of the supplementary phase of `extract_road_info`. -/
def mkAdditional (defs : List (String × String)) (a : String × String × Frac) : RoadInfo :=
  { tag := "highway", value := a.1, color := resolve_color_variable a.2.1 defs,
    symbol_name := roadSymbolName a.1, stroke_width := a.2.2 }

/-- Function `extract_road_info` of `osmand2qgis_road.py`: document-derived highway
rules (first `line` descendant, zoom-14 switches, deduplicated by value,
first occurrence wins) followed by the curated supplementary entries whose
value was not covered.  `Except.error` models the `IndexError` when no
`line` section exists and the `ValueError` of width parsing. -/
def extract_road_info (root : XTree) (defs : List (String × String)) :
    Except Unit (List RoadInfo) :=
  match (strictDesc root).filter (fun n => n.tagOf == "line") with
  | [] => .error ()
  | line_section :: _ =>
    match docLoop defs (highwayCases line_section) [] [] with
    | .error e => .error e
    | .ok (roads, processed) =>
      .ok (roads ++ additional_roads.filterMap (fun a =>
        if processed.contains a.1 then none else some (mkAdditional defs a)))

/-- The `stroke_props` table of the road `create_qgis_symbol` (first layer),
given the already-converted colour string and the extracted width. -/
def stroke_props (strokeColor : String) (stroke_width : Frac) : List (String × String) :=
  [("align_dash_pattern", "0"),
   ("capstyle", "square"),
   ("customdash", "5;2"),
   ("customdash_map_unit_scale", "3x:0,0,0,0,0,0"),
   ("customdash_unit", "MM"),
   ("dash_pattern_offset", "0"),
   ("dash_pattern_offset_map_unit_scale", "3x:0,0,0,0,0,0"),
   ("dash_pattern_offset_unit", "MM"),
   ("draw_inside_polygon", "0"),
   ("joinstyle", "bevel"),
   ("line_color", strokeColor),
   ("line_style", "solid"),
   ("line_width", pyFloatStr stroke_width),
   ("line_width_unit", "MM"),
   ("offset", "0"),
   ("offset_map_unit_scale", "3x:0,0,0,0,0,0"),
   ("offset_unit", "MM"),
   ("ring_filter", "0"),
   ("trim_distance_end", "0"),
   ("trim_distance_end_map_unit_scale", "3x:0,0,0,0,0,0"),
   ("trim_distance_end_unit", "MM"),
   ("trim_distance_start", "0"),
   ("trim_distance_start_map_unit_scale", "3x:0,0,0,0,0,0"),
   ("trim_distance_start_unit", "MM"),
   ("tweak_dash_pattern_on_corners", "0"),
   ("use_custom_dash", "0"),
   ("width_map_unit_scale", "3x:0,0,0,0,0,0")]

/-- The `main_props` table of the road `create_qgis_symbol` (second layer):
round caps and joins, the road colour, and the width scaled by the main
width ratio and rendered with five decimals. -/
def main_props (mainColor : String) (main_width : Frac) : List (String × String) :=
  [("align_dash_pattern", "0"),
   ("capstyle", "round"),
   ("customdash", "5;2"),
   ("customdash_map_unit_scale", "3x:0,0,0,0,0,0"),
   ("customdash_unit", "MM"),
   ("dash_pattern_offset", "0"),
   ("dash_pattern_offset_map_unit_scale", "3x:0,0,0,0,0,0"),
   ("dash_pattern_offset_unit", "MM"),
   ("draw_inside_polygon", "0"),
   ("joinstyle", "round"),
   ("line_color", mainColor),
   ("line_style", "solid"),
   ("line_width", formatFrac 5 main_width),
   ("line_width_unit", "MM"),
   ("offset", "0"),
   ("offset_map_unit_scale", "3x:0,0,0,0,0,0"),
   ("offset_unit", "MM"),
   ("ring_filter", "0"),
   ("trim_distance_end", "0"),
   ("trim_distance_end_map_unit_scale", "3x:0,0,0,0,0,0"),
   ("trim_distance_end_unit", "MM"),
   ("trim_distance_start", "0"),
   ("trim_distance_start_map_unit_scale", "3x:0,0,0,0,0,0"),
   ("trim_distance_start_unit", "MM"),
   ("tweak_dash_pattern_on_corners", "0"),
   ("use_custom_dash", "0"),
   ("width_map_unit_scale", "3x:0,0,0,0,0,0")]

/-- The default `main_width_ratio=0.8` of the road `create_qgis_symbol`. -/
def main_width_ratio : Frac := ⟨8, 10⟩

/-- Function `create_qgis_symbol` of `osmand2qgis_road.py`: a line symbol with the
dark-gray stroke layer first (`pass="0"`, unmodified width) and the
coloured main layer second (`pass="1"`, width times `0.8` at five
decimals).  The two `hex_to_rgb` calls happen in source order; an invalid
six-character hex remainder raises. -/
def create_qgis_symbol (road_info : RoadInfo) : Except Unit QSymbol :=
  match hex_to_rgb "#565656", hex_to_rgb road_info.color with
  | .error e, _ => .error e
  | .ok _, .error e => .error e
  | .ok strokeColor, .ok mainColor =>
    let strokeLayer : QLayer :=
      { pass := "0", enabled := "1", cls := "SimpleLine", locked := "0",
        props := stroke_props strokeColor road_info.stroke_width }
    let mainLayer : QLayer :=
      { pass := "1", enabled := "1", cls := "SimpleLine", locked := "0",
        props := main_props mainColor
          (Frac.mul road_info.stroke_width main_width_ratio) }
    let sym : QSymbol :=
      { typ := "line", name := road_info.symbol_name,
        attrs := [("frame_rate", "10"), ("tags", "OSMAnd"), ("clip_to_extent", "1"),
          ("is_animated", "0"), ("force_rhr", "0"), ("alpha", "1")],
        layers := [strokeLayer, mainLayer] }
    .ok sym

end Road

/-! ## Output file contents -/

/-- The XML declaration lxml writes (`tree.write(..., xml_declaration=True)`
uses single quotes). -/
def xmlDecl : String :=
  "<?xml version=" ++ apos.toString ++ "1.0" ++ apos.toString
    ++ " encoding=" ++ apos.toString ++ "utf-8" ++ apos.toString ++ "?>"

/-- The document-type declaration both converters emit. -/
def doctypeStr : String := "<!DOCTYPE qgis_style>"

/-- Python `s.replace(p, r)` on character lists: leftmost, non-overlapping,
replace all.  (Both call sites pass the fixed non-empty XML declaration as
`p`; the degenerate empty pattern, where Python would interleave `r`, keeps
`s` here.) -/
def replaceAll (p r : List Char) : List Char → List Char
  | [] => []
  | c :: s =>
    if p ≠ [] ∧ List.isPrefixOf p (c :: s) then
      r ++ replaceAll p r ((c :: s).drop p.length)
    else c :: replaceAll p r s
termination_by s => s.length
decreasing_by
  · simp only [List.length_drop, List.length_cons]
    have hp : p ≠ [] := by tauto
    have : 0 < p.length := List.length_pos.mpr hp
    omega
  · simp

namespace Point

/-- The file content `main` of `osmand2qgis_point.py` writes: the serialised
document (declaration, newline, body), with the declaration replaced by
declaration plus doctype line. -/
def writeContent (body : String) : String :=
  String.mk (replaceAll xmlDecl.data (xmlDecl ++ "\n" ++ doctypeStr).data
    (xmlDecl ++ "\n" ++ body).data)

end Point

namespace Road

/-- The file content `generate_qgis_style` of `osmand2qgis_road.py` writes:
the doctype line followed by the serialised document without any XML
declaration (`xml_declaration=False`). -/
def writeContent (body : String) : String := doctypeStr ++ "\n" ++ body

end Road

/-! ## Spec-side definitions and concrete instances -/

/-- Non-emptiness of a stripped attribute: the attribute is present and not
blank ("whitespace-only is treated as empty"). -/
def nonBlankAttr (n : XTree) (k : String) : Bool := pyStrip (n.attrD k "") != ""

/-- Modelled from the spec sentence of §4.1 for comparison with the code:
"produce the set of all descendant nodes carrying non-empty `tag`, `value`,
and `icon` attributes, in document order" — with no restriction on the
node's tag name. -/
def specPointTargets (root : XTree) : List XTree :=
  (strictDesc root).filter (fun n =>
    nonBlankAttr n "tag" && nonBlankAttr n "value" && nonBlankAttr n "icon")

/-- Modelled from the spec sentence of §4.3 for comparison with the code:
the element's own `shield`, else the `shield` of the first ancestor among
the grouping types `switch`/`apply` that carries one. -/
def specShield (c : XTree) (anc : List XTree) : Option String :=
  match c.attr "shield" with
  | some v => some v
  | none =>
    ((anc.filter (fun p => (p.tagOf == "switch" || p.tagOf == "apply")
        && (p.attr "shield").isSome)).head?).bind (fun p => p.attr "shield")

/-- Value of an `Except` with a default for the error case. -/
def okOr {α : Type} (e : Except Unit α) (d : α) : α :=
  match e with
  | .ok a => a
  | .error _ => d

/-- A source document whose only rule-like element is a `switch` (not a
`case`) carrying non-blank `tag`, `value` and `icon`. -/
def c1Root : XTree :=
  .node "renderingStyle" []
    [.node "switch" [("tag", "amenity"), ("value", "bench"), ("icon", "bench")] []]

/-- A line section with two highway cases whose distinct raw values
(`abc` / `aBc`) title-case to the same symbol name `Road Abc`. -/
def roadDupRoot : XTree :=
  .node "renderingStyle" []
    [.node "line" []
      [.node "switch" [("minzoom", "14")]
        [.node "case" [("tag", "highway"), ("value", "abc"), ("color", "#112233")] [],
         .node "case" [("tag", "highway"), ("value", "aBc"), ("color", "#445566")] []]]]

/-- The road records extracted from `roadDupRoot` with an empty colour
table. -/
def roadDupRoads : List Road.RoadInfo := okOr (Road.extract_road_info roadDupRoot []) []

/-- A concrete road record with a resolvable colour, used to instantiate the
road-symbol theorems. -/
def c5Info : Road.RoadInfo :=
  { tag := "highway", value := "primary", color := "#ffdb93",
    symbol_name := "Road Primary", stroke_width := ⟨45, 10⟩ }

/-- The symbol generated from `c5Info`. -/
def c5Sym : QSymbol := okOr (Road.create_qgis_symbol c5Info) ⟨"", "", [], []⟩

/-- A rule element whose subtree carries no `strokeWidth` text at all. -/
def c7NoW : XTree :=
  .node "case" [("tag", "highway")] [.node "apply" [] [.node "case" [("minzoom", "15")] []]]

/-- A rule element whose nested case matches `minzoom="16" strokeWidth="3:2"`. -/
def c7Yes : XTree :=
  .node "case" []
    [.node "apply" [] [.node "case" [("minzoom", "16"), ("strokeWidth", "3:2")] []]]

/-! ## Theorems -/

/-- Helper: the converted dark-gray stroke colour (shared by several
proofs). -/
theorem hex_to_rgb_gray : hex_to_rgb "#565656"
    = .ok "86,86,86,255,rgb:0.3372549020,0.3372549020,0.3372549020,1" := rfl

/-- C9: applied to `"#565656"`, `hex_to_rgb` returns exactly the string
`"86,86,86,255,rgb:0.3372549020,0.3372549020,0.3372549020,1"` — 0–255
integer channels, the constant opacity channel 255, and each channel
divided by 255 at ten-digit precision. -/
theorem C9_hex_to_rgb_565656 : hex_to_rgb "#565656"
    = .ok "86,86,86,255,rgb:0.3372549020,0.3372549020,0.3372549020,1" := rfl

/-- C10: for every input whose remainder after stripping leading `#`
characters does not have length 6, `hex_to_rgb` returns the constant
fallback `"0,0,0,255,rgb:0,0,0,1"` and never raises. -/
theorem C10_hex_to_rgb_fallback (s : String) (h : (pyLstrip s '#').length ≠ 6) :
    hex_to_rgb s = .ok "0,0,0,255,rgb:0,0,0,1" := by
  have h' : (pyLstrip s '#').data.length ≠ 6 := h
  unfold hex_to_rgb
  generalize (pyLstrip s '#').data = l at h' ⊢
  rcases l with _ | ⟨a, _ | ⟨b, _ | ⟨c, _ | ⟨d, _ | ⟨e, _ | ⟨f, _ | ⟨g, t⟩⟩⟩⟩⟩⟩⟩
  all_goals first
    | rfl
    | exact absurd (by simp) h'

/-- C10 witness: the three-character remainder `"fff"` takes the fallback. -/
theorem C10_witness : (pyLstrip "#fff" '#').length ≠ 6
    ∧ hex_to_rgb "#fff" = .ok "0,0,0,255,rgb:0,0,0,1" :=
  ⟨by decide, C10_hex_to_rgb_fallback "#fff" (by decide)⟩

/-- Helper: a string starting with one character does not start with a
different one. -/
theorem pyStartsWith_ne {s : String} {a b : Char} (hab : b ≠ a)
    (h : pyStartsWith s a = true) : pyStartsWith s b = false := by
  unfold pyStartsWith at *
  cases hl : s.data with
  | nil => simp [hl] at h
  | cons c t =>
    rw [hl] at h
    have hc : c = a := by simpa using h
    subst hc
    simpa using fun hh => hab hh.symm

/-- C4: `resolve_color_variable` returns the table entry for a
`$`-prefixed variable with an entry, returns a `#`-prefixed input
unchanged, and returns `"#000000"` in every other case; it never fails
(it is a total function). -/
theorem C4_resolve_color_variable (cv : String) (defs : List (String × String)) :
    (∀ v, pyStartsWith cv '$' = true → defs.lookup (pyDropOne cv) = some v →
      resolve_color_variable cv defs = v)
    ∧ (pyStartsWith cv '#' = true → resolve_color_variable cv defs = cv)
    ∧ ((pyStartsWith cv '$' = true → defs.lookup (pyDropOne cv) = none) →
        pyStartsWith cv '#' = false → resolve_color_variable cv defs = "#000000") := by
  refine ⟨?_, ?_, ?_⟩
  · intro v h1 h2
    simp [resolve_color_variable, h1, h2]
  · intro h
    have h' : pyStartsWith cv '$' = false := pyStartsWith_ne (by decide) h
    simp [resolve_color_variable, h, h']
  · intro h1 h2
    cases hd : pyStartsWith cv '$' with
    | false => simp [resolve_color_variable, hd, h2]
    | true => simp [resolve_color_variable, hd, h1 hd]

/-- C4 witness: a resolvable variable, a hex literal, and an unknown
variable. -/
theorem C4_witness :
    resolve_color_variable "$primaryColor" [("primaryColor", "#ffaa00")] = "#ffaa00"
    ∧ resolve_color_variable "#cdcdcd" [] = "#cdcdcd"
    ∧ resolve_color_variable "$missing" [("primaryColor", "#ffaa00")] = "#000000" :=
  ⟨(C4_resolve_color_variable _ _).1 "#ffaa00" (by decide) (by decide),
   (C4_resolve_color_variable _ _).2.1 (by decide),
   (C4_resolve_color_variable _ _).2.2 (fun _ => by decide) (by decide)⟩

/-- Helper: the ancestor walk returns the `shield` of the first qualifying
(`switch`/`apply`, shield-carrying) ancestor. -/
theorem walkShield_eq_filter (anc : List XTree) :
    Point.walkShield anc = ((anc.filter (fun p => (p.tagOf == "switch" || p.tagOf == "apply")
      && (p.attr "shield").isSome)).head?).bind (fun p => p.attr "shield") := by
  induction anc with
  | nil => rfl
  | cons p rest ih =>
    cases hsw : p.tagOf == "switch" <;> cases hap : p.tagOf == "apply" <;>
      cases hsh : (p.attr "shield").isSome <;>
      simp [Point.walkShield, hsw, hap, hsh, ih]

/-- C3: `find_shield_value` returns the node's own `shield` when present,
otherwise the `shield` of the first ancestor (walking strictly upward)
whose tag is `switch` or `apply` and which carries one, and `none` (never
an error — the function is total) when the root is reached without a
match. -/
theorem C3_find_shield_value (c : XTree) (anc : List XTree) :
    Point.find_shield_value c anc = specShield c anc := by
  cases h : c.attr "shield" <;>
    simp [Point.find_shield_value, specShield, h, walkShield_eq_filter]

/-- Helper: a present-attribute test is absorbed by the corresponding
non-blank test (a blank default arises exactly when the attribute is
absent or whitespace-only). -/
theorem presence_absorb (o : Option String) :
    (o.isSome && (pyStrip (o.getD "") != "")) = (pyStrip (o.getD "") != "") := by
  cases o with
  | none => decide
  | some v => simp

/-- C1 counterexample: the extractor passes over a descendant that carries
non-blank `tag`, `value` and `icon` but is not a `case` element, so it does
not yield exactly the attribute-carrying descendants. -/
theorem C1_counterexample : (Point.pointRules c1Root).length = 0
    ∧ (specPointTargets c1Root).length = 1
    ∧ Point.pointRules c1Root ≠ specPointTargets c1Root := by
  refine ⟨rfl, rfl, fun h => ?_⟩
  have h0 : (Point.pointRules c1Root).length = 0 := rfl
  rw [h] at h0
  have h1 : (specPointTargets c1Root).length = 1 := rfl
  rw [h0] at h1
  exact absurd h1 (by decide)

/-- C1 (amended): the point-rule extractor yields exactly the descendant
`case` elements of the root whose `tag`, `value` and `icon` attributes are
all present and non-blank (whitespace-only treated as empty), in document
order. -/
theorem C1_point_extractor (root : XTree) :
    Point.pointRules root = (strictDesc root).filter
      (fun n => n.tagOf == "case"
        && (nonBlankAttr n "tag" && (nonBlankAttr n "value" && nonBlankAttr n "icon"))) := by
  unfold Point.pointRules Point.cases
  rw [List.filter_filter]
  apply List.filter_congr
  intro n _
  have e1 := presence_absorb (n.attr "tag")
  have e2 := presence_absorb (n.attr "value")
  have e3 := presence_absorb (n.attr "icon")
  unfold Point.caseSel nonBlankAttr XTree.attrD
  revert e1 e2 e3
  cases n.tagOf == "case" <;>
    cases (n.attr "tag").isSome <;>
    cases (n.attr "value").isSome <;>
    cases (n.attr "icon").isSome <;>
    cases (pyStrip ((n.attr "tag").getD "") != "") <;>
    cases (pyStrip ((n.attr "value").getD "") != "") <;>
    cases (pyStrip ((n.attr "icon").getD "") != "") <;>
    decide

/-- C5: every generated point symbol has exactly two layers — the shield
layer first and the icon layer second, both `pass="0"` — and every
generated road symbol has exactly two layers — the stroke layer (square
caps, bevel joins) first with `pass="0"` and the fill layer (round caps
and joins) second with `pass="1"`. -/
theorem C5_symbol_layers :
    (∀ value icon_b64 shield_b64 : String,
      (Point.create_qgis_symbol value icon_b64 shield_b64).layers.length = 2
      ∧ (Point.create_qgis_symbol value icon_b64 shield_b64).layers.map QLayer.pass = ["0", "0"]
      ∧ ((Point.create_qgis_symbol value icon_b64 shield_b64).layers[0]?).bind
          (fun l => l.props.lookup "name") = some shield_b64
      ∧ ((Point.create_qgis_symbol value icon_b64 shield_b64).layers[1]?).bind
          (fun l => l.props.lookup "name") = some icon_b64)
    ∧ (∀ (info : Road.RoadInfo) (sym : QSymbol), Road.create_qgis_symbol info = .ok sym →
      sym.layers.length = 2
      ∧ sym.layers.map QLayer.pass = ["0", "1"]
      ∧ (sym.layers[0]?).bind (fun l => l.props.lookup "capstyle") = some "square"
      ∧ (sym.layers[1]?).bind (fun l => l.props.lookup "capstyle") = some "round") := by
  constructor
  · intro value icon_b64 shield_b64
    exact ⟨rfl, rfl, rfl, rfl⟩
  · intro info sym h
    cases hc : hex_to_rgb info.color with
    | error e =>
      simp [Road.create_qgis_symbol, hex_to_rgb_gray, hc] at h
    | ok mc =>
      simp only [Road.create_qgis_symbol, hex_to_rgb_gray, hc, Except.ok.injEq] at h
      subst h
      exact ⟨rfl, rfl, rfl, rfl⟩

/-- C5 witness: the concrete road record `c5Info` generates `c5Sym` with the
stated layer structure (the point half of the theorem has no hypothesis). -/
theorem C5_witness : Road.create_qgis_symbol c5Info = .ok c5Sym
    ∧ c5Sym.layers.length = 2 ∧ c5Sym.layers.map QLayer.pass = ["0", "1"] := by
  have h : Road.create_qgis_symbol c5Info = .ok c5Sym := rfl
  exact ⟨h, (C5_symbol_layers.2 c5Info c5Sym h).1, (C5_symbol_layers.2 c5Info c5Sym h).2.1⟩

/-- C2: in every generated road symbol, the fill (main) layer's
`line_width` is `0.8 × strokeWidth` rendered with five decimals, the
stroke layer's `line_width` is the unmodified width (Python `str`), and
the stroke layer's `line_color` is the converted fixed dark-gray
`#565656`. -/
theorem C2_road_widths (info : Road.RoadInfo) (sym : QSymbol)
    (h : Road.create_qgis_symbol info = .ok sym) :
    (sym.layers[1]?).bind (fun l => l.props.lookup "line_width")
      = some (formatFrac 5 (Frac.mul info.stroke_width Road.main_width_ratio))
    ∧ (sym.layers[0]?).bind (fun l => l.props.lookup "line_width")
      = some (pyFloatStr info.stroke_width)
    ∧ (sym.layers[0]?).bind (fun l => l.props.lookup "line_color")
      = some "86,86,86,255,rgb:0.3372549020,0.3372549020,0.3372549020,1" := by
  cases hc : hex_to_rgb info.color with
  | error e =>
    simp [Road.create_qgis_symbol, hex_to_rgb_gray, hc] at h
  | ok mc =>
    simp only [Road.create_qgis_symbol, hex_to_rgb_gray, hc, Except.ok.injEq] at h
    subst h
    exact ⟨rfl, rfl, rfl⟩

/-- C2 witness: for the width `4.5` the fill layer gets `3.60000`
(`4.5 × 0.8` at five decimals) and the stroke layer gets `4.5`. -/
theorem C2_witness : Road.create_qgis_symbol c5Info = .ok c5Sym
    ∧ (c5Sym.layers[1]?).bind (fun l => l.props.lookup "line_width") = some "3.60000"
    ∧ (c5Sym.layers[0]?).bind (fun l => l.props.lookup "line_width") = some "4.5"
    ∧ formatFrac 5 (Frac.mul c5Info.stroke_width Road.main_width_ratio) = "3.60000" := by
  have h : Road.create_qgis_symbol c5Info = .ok c5Sym := rfl
  have t := C2_road_widths c5Info c5Sym h
  exact ⟨h, t.1.trans rfl, (t.2.1).trans rfl, rfl⟩

/-- Helper: a failing duplicate scan means the name is absent from the
container. -/
theorem not_any_name {acc : List QSymbol} {sn : String}
    (h : ¬ acc.any (fun s => s.name == sn) = true) : sn ∉ acc.map QSymbol.name := by
  intro hm
  obtain ⟨s, hs, hname⟩ := List.mem_map.mp hm
  exact h (List.any_eq_true.mpr ⟨s, hs, by simp [hname]⟩)

/-- Helper: appending a fresh name keeps container names duplicate-free. -/
theorem nodup_concat_name {acc : List QSymbol} {x : QSymbol}
    (h : (acc.map QSymbol.name).Nodup) (hx : x.name ∉ acc.map QSymbol.name) :
    ((acc ++ [x]).map QSymbol.name).Nodup := by
  rw [List.map_append]
  refine List.nodup_append.mpr ⟨h, by simp, ?_⟩
  intro a ha hb
  simp only [List.map_cons, List.map_nil, List.mem_singleton] at hb
  subst hb
  exact hx ha

/-- Helper: the point main loop preserves duplicate-freeness of the symbol
names in the container. -/
theorem point_loop_nodup (fsE : String → Bool) (fsC : String → String)
    (cands : List (XTree × List XTree)) :
    ∀ acc : List QSymbol, (acc.map QSymbol.name).Nodup →
      ((Point.loop fsE fsC cands acc).map QSymbol.name).Nodup := by
  induction cands with
  | nil => intro acc h; simpa [Point.loop] using h
  | cons hd tl ih =>
    intro acc h
    obtain ⟨c, anc⟩ := hd
    simp only [Point.loop]
    split
    · exact ih acc h
    · split
      · exact ih acc h
      · split
        · exact ih acc h
        · split
          · exact ih acc h
          · split
            · exact ih acc h
            · split
              · exact ih acc h
              · exact ih _ (nodup_concat_name h (not_any_name (by assumption)))

/-- Helper: the highway loop of `extract_road_info` keeps `processed` equal
to the accumulated values and duplicate-free. -/
theorem docLoop_ok (defs : List (String × String)) (cs : List XTree) :
    ∀ (roads : List Road.RoadInfo) (processed : List String)
      (out : List Road.RoadInfo × List String),
      processed = roads.map Road.RoadInfo.value → processed.Nodup →
      Road.docLoop defs cs roads processed = .ok out →
      out.2 = out.1.map Road.RoadInfo.value ∧ out.2.Nodup := by
  induction cs with
  | nil =>
    intro roads processed out h1 h2 h3
    simp only [Road.docLoop, Except.ok.injEq] at h3
    subst h3
    exact ⟨h1, h2⟩
  | cons c rest ih =>
    intro roads processed out h1 h2 h3
    simp only [Road.docLoop] at h3
    split at h3
    · rename_i hcond
      split at h3
      · simp at h3
      · rename_i w hw
        have hmem : ¬ c.attrD "value" "" ∈ processed := by
          have h4 : processed.contains (c.attrD "value" "") = false := by
            rcases Bool.and_eq_true_iff.mp hcond with ⟨_, h5⟩
            simpa using h5
          simpa using h4
        refine ih _ _ _ ?_ ?_ h3
        · rw [List.map_append, h1]; rfl
        · exact List.nodup_append.mpr ⟨h2, by simp, by
            intro a ha hb
            simp only [List.mem_singleton] at hb
            subst hb
            exact hmem ha⟩
    · exact ih _ _ _ h1 h2 h3

/-- Helper: the values contributed by the supplementary phase are the
tabulated values not yet processed, in table order. -/
theorem filterMap_additional_values (defs : List (String × String))
    (processed : List String) (l : List (String × String × Frac)) :
    (l.filterMap (fun a => if processed.contains a.1 then none
        else some (Road.mkAdditional defs a))).map Road.RoadInfo.value
      = (l.filter (fun a => !processed.contains a.1)).map (fun a => a.1) := by
  induction l with
  | nil => rfl
  | cons a t ih =>
    cases hc : processed.contains a.1 <;> simp at hc <;>
      simp [List.filterMap_cons, List.filter_cons, hc, Road.mkAdditional] at ih ⊢ <;>
      simp [ih]

/-- C6 counterexample: on `roadDupRoot` the road pipeline emits two symbols
that share the `symbolName` `"Road Abc"` (raw values `abc` and `aBc` are
distinct, so value-level deduplication keeps both), refuting name-level
uniqueness for the road output. -/
theorem C6_counterexample :
    Road.extract_road_info roadDupRoot [] = .ok roadDupRoads
    ∧ roadDupRoads.map Road.RoadInfo.symbol_name
      = ["Road Abc", "Road Abc", "Road Service", "Road Pedestrian", "Road Footway",
         "Road Cycleway", "Road Path", "Road Bridleway", "Road Steps",
         "Road Living Street", "Road Road"]
    ∧ ¬ (roadDupRoads.map Road.RoadInfo.symbol_name).Nodup :=
  ⟨rfl, by decide, by decide⟩

/-- C6 (amended): the point pipeline's output never contains two symbols
with the same `symbolName` (the duplicate scan drops later ones, first in
encounter order wins); the road pipeline deduplicates by raw highway
`value` (first occurrence wins), so its output values are unique — but two
distinct values that title-case to the same name still yield duplicate
symbol names. -/
theorem C6_uniqueness :
    (∀ (root : XTree) (fsE : String → Bool) (fsC : String → String),
      ((Point.mainSymbols root fsE fsC).map QSymbol.name).Nodup)
    ∧ (∀ (root : XTree) (defs : List (String × String)) (l : List Road.RoadInfo),
        Road.extract_road_info root defs = .ok l →
        (l.map Road.RoadInfo.value).Nodup) := by
  constructor
  · intro root fsE fsC
    exact point_loop_nodup fsE fsC _ [] (by simp)
  · intro root defs l h
    unfold Road.extract_road_info at h
    split at h
    · simp at h
    · split at h
      · simp at h
      · rename_i roads processed heq
        obtain ⟨hpv, hpn⟩ := docLoop_ok defs _ [] [] (roads, processed) rfl List.nodup_nil heq
        simp only at hpv hpn
        simp only [Except.ok.injEq] at h
        subst h
        rw [List.map_append, filterMap_additional_values]
        refine List.nodup_append.mpr ⟨?_, ?_, ?_⟩
        · rw [← hpv]; exact hpn
        · exact List.Nodup.sublist
            (List.Sublist.map _ (List.filter_sublist _)) (by decide)
        · intro a ha hb
          rw [← hpv] at ha
          obtain ⟨x, hx, hxa⟩ := List.mem_map.mp hb
          obtain ⟨_, hcon⟩ := List.mem_filter.mp hx
          subst hxa
          have : ¬ x.1 ∈ processed := by simpa using hcon
          exact this ha

/-- C6 witness: a concrete document where the road part's hypothesis holds
and the extracted values are duplicate-free. -/
theorem C6_witness : Road.extract_road_info roadDupRoot [] = .ok roadDupRoads
    ∧ (roadDupRoads.map Road.RoadInfo.value).Nodup := by
  have h : Road.extract_road_info roadDupRoot [] = .ok roadDupRoads := rfl
  exact ⟨h, C6_uniqueness.2 roadDupRoot [] roadDupRoads h⟩

/-- Helper: the Boolean substring scan decides list containment. -/
theorem listContainsSub_iff (p : List Char) :
    ∀ s : List Char, Road.listContainsSub p s = true ↔ p <:+: s := by
  intro s
  induction s with
  | nil => simp [Road.listContainsSub, List.isEmpty_iff, List.infix_nil]
  | cons c rest ih =>
    simp [Road.listContainsSub, ih, List.infix_cons_iff, List.isPrefixOf_iff_prefix,
      Bool.or_eq_true]

/-- Helper: a non-empty forest's serialisation sits inside its parent
element's serialisation. -/
theorem serializeList_sub_serializeX (tg : String) (aa : List (String × String))
    (c0 : XTree) (cs0 : List XTree) :
    (serializeList (c0 :: cs0)).data <:+: (serializeX (XTree.node tg aa (c0 :: cs0))).data := by
  refine ⟨("<" ++ tg ++ attrsStr aa ++ ">").data, ("</" ++ tg ++ ">").data, ?_⟩
  simp [serializeX, List.isEmpty_cons, String.data_append, List.append_assoc]

/-- Helper: every node of a forest's descendant closure serialises to an
infix of the forest's serialisation. -/
theorem desc_serial_sub : ∀ (cs : List XTree) (d : XTree), d ∈ descList cs →
    (serializeX d).data <:+: (serializeList cs).data
  | [], d, h => by simp [descList] at h
  | XTree.node tg aa cc :: cs', d, h => by
    have hhead : (serializeX (XTree.node tg aa cc)).data
        <:+: (serializeList (XTree.node tg aa cc :: cs')).data := by
      rw [serializeList, String.data_append]
      exact (List.prefix_append _ _).isInfix
    rw [descList] at h
    rcases List.mem_cons.mp h with rfl | h2
    · exact hhead
    rcases List.mem_append.mp h2 with h3 | h4
    · have h5 : d ∈ descList cc := h3
      have ih1 := desc_serial_sub cc d h5
      cases cc with
      | nil => simp [descList] at h5
      | cons c0 cs0 =>
        exact ih1.trans ((serializeList_sub_serializeX tg aa c0 cs0).trans hhead)
    · have ih2 := desc_serial_sub cs' d h4
      have h8 : (serializeList cs').data
          <:+: (serializeList (XTree.node tg aa cc :: cs')).data := by
        rw [serializeList, String.data_append]
        exact (List.suffix_append _ _).isInfix
      exact ih2.trans h8
termination_by cs => sizeOf cs

/-- Helper: every strict descendant serialises to an infix of the
element's serialisation. -/
theorem strictDesc_serial_sub (t d : XTree) (h : d ∈ strictDesc t) :
    (serializeX d).data <:+: (serializeX t).data := by
  obtain ⟨tg, aa, cc⟩ := t
  have h5 : d ∈ descList cc := h
  cases cc with
  | nil => simp [descList] at h5
  | cons c0 cs0 =>
    exact (desc_serial_sub _ d h5).trans (serializeList_sub_serializeX tg aa c0 cs0)

/-- Helper: every case the width extractor inspects serialises to an infix
of the rule element's serialisation. -/
theorem inspected_sub (t : XTree) :
    ∀ c ∈ Road.inspectedCases t, (serializeX c).data <:+: (serializeX t).data := by
  intro c hc
  obtain ⟨a, ha, hca⟩ := List.mem_flatMap.mp hc
  exact (strictDesc_serial_sub a c (List.mem_filter.mp hca).1).trans
    (strictDesc_serial_sub t a (List.mem_filter.mp ha).1)

/-- Helper: when the case text does not contain `strokeWidth=`, no pattern
matches. -/
theorem matchCase_none (s : String) (h : ¬ ("strokeWidth=".data <:+: s.data)) :
    Road.matchCase 16 s = none := by
  have key : ∀ pat : String, "strokeWidth=".data <:+: pat.data →
      Road.listContainsSub pat.data s.data = false := by
    intro pat hsub
    cases hq : Road.listContainsSub pat.data s.data with
    | false => rfl
    | true => exact absurd (hsub.trans ((listContainsSub_iff _ _).mp hq)) h
  have k1 := key ("maxzoom=\"" ++ toString 16 ++ "\" strokeWidth=") (by decide)
  have k2 := key ("minzoom=\"" ++ toString 16 ++ "\" strokeWidth=") (by decide)
  have k3 := key "strokeWidth=" (by decide)
  simp only [Road.matchCase, Road.stroke_width_attrs, List.findSome?_cons,
    List.findSome?_nil, k1, k2, k3, Bool.false_eq_true, if_false]

/-- C7: stroke-width extraction searches the rule's subtree for a textual
`strokeWidth` pattern at target zoom 16; if no such text exists anywhere in
the serialised subtree the fixed default `2.0` is returned, and when the
first matched value contains the `:` separator the portion before it is
parsed as the numeric width. -/
theorem C7_stroke_width (t : XTree) :
    (¬ ("strokeWidth=".data <:+: (serializeX t).data) →
      Road.extract_stroke_width_for_zoom t 16 = .ok ⟨2, 1⟩)
    ∧ (∀ v : String, Road.firstStrokeMatch 16 t = some v → v.data.contains ':' = true →
      Road.extract_stroke_width_for_zoom t 16
        = pyFloat (String.mk (v.data.takeWhile (· != ':')))) := by
  constructor
  · intro h
    have hnone : Road.firstStrokeMatch 16 t = none := by
      rw [Road.firstStrokeMatch, List.findSome?_eq_none_iff]
      intro c hc
      exact matchCase_none _ (fun hsub => h (hsub.trans (inspected_sub t c hc)))
    simp [Road.extract_stroke_width_for_zoom, hnone]
  · intro v hv hcolon
    have hc' : ':' ∈ v.data := by simpa using hcolon
    simp [Road.extract_stroke_width_for_zoom, hv, Road.widthOfValue, hc']

/-- C7 witness: a subtree with no `strokeWidth` text yields the default
`2.0`; a nested `minzoom="16" strokeWidth="3:2"` case yields the portion
before the separator. -/
theorem C7_witness :
    (¬ ("strokeWidth=".data <:+: (serializeX c7NoW).data))
    ∧ Road.extract_stroke_width_for_zoom c7NoW 16 = .ok ⟨2, 1⟩
    ∧ Road.firstStrokeMatch 16 c7Yes = some "3:2"
    ∧ Road.extract_stroke_width_for_zoom c7Yes 16
      = pyFloat (String.mk (("3:2" : String).data.takeWhile (· != ':'))) :=
  ⟨by decide, (C7_stroke_width c7NoW).1 (by decide), by decide,
    (C7_stroke_width c7Yes).2 "3:2" (by decide) (by decide)⟩

/-- Helper: replacement leaves a text without any occurrence unchanged. -/
theorem replaceAll_no_occ {p r : List Char} :
    ∀ {s : List Char}, ¬ (p <:+: s) → replaceAll p r s = s := by
  intro s
  induction s with
  | nil => intro _; simp [replaceAll]
  | cons c s' ih =>
    intro h
    have hnc : ¬ (p ≠ [] ∧ List.isPrefixOf p (c :: s') = true) := by
      rintro ⟨_, hpre⟩
      exact h (List.isPrefixOf_iff_prefix.mp hpre).isInfix
    simp only [replaceAll, if_neg hnc]
    rw [ih (fun hsub => h (List.infix_cons hsub))]

/-- Helper: replacement at the very start of the text, when the pattern
occurs nowhere later. -/
theorem replaceAll_at_head {p r rest : List Char} (hp : p ≠ []) (h : ¬ (p <:+: rest)) :
    replaceAll p r (p ++ rest) = r ++ rest := by
  cases p with
  | nil => exact absurd rfl hp
  | cons a p' =>
    have hpre : List.isPrefixOf (a :: p') ((a :: p') ++ rest) = true :=
      List.isPrefixOf_iff_prefix.mpr (List.prefix_append _ _)
    have hcond : (a :: p') ≠ [] ∧ List.isPrefixOf (a :: p') (a :: (p' ++ rest)) = true :=
      ⟨by simp, hpre⟩
    show replaceAll (a :: p') r (a :: (p' ++ rest)) = r ++ rest
    simp only [replaceAll, if_pos hcond]
    have hdrop : (a :: (p' ++ rest)).drop (a :: p').length = rest := List.drop_left _ _
    rw [hdrop, replaceAll_no_occ h]

/-- C8 counterexample: the road pipeline's output begins with the doctype
line and contains no XML declaration at all, so its doctype does not
follow an XML prolog. -/
theorem C8_counterexample :
    Road.writeContent "<qgis_style version=\"2\"/>"
      = "<!DOCTYPE qgis_style>\n<qgis_style version=\"2\"/>"
    ∧ ¬ ("<?xml".data <:+: (Road.writeContent "<qgis_style version=\"2\"/>").data) :=
  ⟨rfl, by decide⟩

/-- C8 (amended): the point pipeline's output carries the doctype literal
immediately after the XML declaration line; the road pipeline's output
instead begins directly with the doctype literal and has no XML
declaration before it. -/
theorem C8_doctype :
    (∀ body : String, ¬ (xmlDecl.data <:+: body.data) →
      (Point.writeContent body).data
        = xmlDecl.data ++ '\n' :: (doctypeStr.data ++ '\n' :: body.data))
    ∧ (∀ body : String, (Road.writeContent body).data
        = doctypeStr.data ++ '\n' :: body.data) := by
  constructor
  · intro body h
    have h2 : ¬ (xmlDecl.data <:+: ('\n' :: body.data)) := by
      intro hsub
      rcases List.infix_cons_iff.mp hsub with hpre | hsub'
      · have hx : '<' :: ("?xml version=" ++ apos.toString ++ "1.0" ++ apos.toString
            ++ " encoding=" ++ apos.toString ++ "utf-8" ++ apos.toString ++ "?>").data
            = xmlDecl.data := by decide
        rw [← hx] at hpre
        exact absurd (List.cons_prefix_cons.mp hpre).1 (by decide)
      · exact h hsub'
    have hnl : ("\n" : String).data = ['\n'] := rfl
    have harg : (xmlDecl ++ "\n" ++ body).data = xmlDecl.data ++ ('\n' :: body.data) := by
      simp [String.data_append, hnl]
    have hrep : (xmlDecl ++ "\n" ++ doctypeStr).data
        = xmlDecl.data ++ ('\n' :: doctypeStr.data) := by
      simp [String.data_append, hnl]
    show replaceAll xmlDecl.data (xmlDecl ++ "\n" ++ doctypeStr).data
      (xmlDecl ++ "\n" ++ body).data = _
    rw [harg, hrep, replaceAll_at_head (by decide) h2]
    simp [List.append_assoc]
  · intro body
    show (doctypeStr ++ "\n" ++ body).data = _
    have hnl : ("\n" : String).data = ['\n'] := rfl
    simp [String.data_append, hnl]

/-- C8 witness: a concrete body without an embedded declaration. -/
theorem C8_witness :
    (¬ (xmlDecl.data <:+: ("<qgis_style/>" : String).data))
    ∧ (Point.writeContent "<qgis_style/>").data
      = xmlDecl.data ++ '\n' :: (doctypeStr.data ++ '\n' :: ("<qgis_style/>" : String).data) :=
  ⟨by decide, C8_doctype.1 "<qgis_style/>" (by decide)⟩

end O2Q
